import Mathlib

/-!
Verification development for the jlctl device-communication core.

The definitions below are a shallow embedding of the Rust sources:
`src/types.rs` (data model), `src/parser.rs` (wire grammar),
`src/device.rs` (transport operations) and `src/device_manager.rs`
(port discovery and connection management).

Strings are modelled at the character level (`List Char`); the Rust code
operates on UTF-8 bytes, and on ASCII data — which covers every protocol
line and port name considered here — the two views coincide.
-/

/-! ## Data model (`src/types.rs`) -/

/-- Nodes of the breadboard, from `types.rs` (`enum Node`). `Column` carries
the breadboard column number (a `u8` in the source, modelled as `Nat`). -/
inductive Node where
  | GND
  | SUPPLY_5V
  | SUPPLY_3V3
  | DAC0
  | DAC1
  | ISENSE_MINUS
  | ISENSE_PLUS
  | ADC0
  | ADC1
  | ADC2
  | ADC3
  | NANO_D0
  | NANO_D1
  | NANO_D2
  | NANO_D3
  | NANO_D4
  | NANO_D5
  | NANO_D6
  | NANO_D7
  | NANO_D8
  | NANO_D9
  | NANO_D10
  | NANO_D11
  | NANO_D12
  | NANO_D13
  | NANO_A0
  | NANO_A1
  | NANO_A2
  | NANO_A3
  | NANO_A4
  | NANO_A5
  | NANO_A6
  | NANO_A7
  | NANO_RESET
  | NANO_AREF
  | RP_GPIO_0
  | RP_UART_Rx
  | RP_UART_Tx
  | Column (n : Nat)
deriving DecidableEq, Repr

/-- Source `Node::col` from `types.rs`: accepts column numbers 1..=60. -/
def Node.col (n : Nat) : Option Node :=
  if 1 ≤ n ∧ n ≤ 60 then some (Node.Column n) else none

/-- Rust `str::parse::<u8>`: optional leading `+`, then one or more decimal
digits, value at most 255. -/
def parseRustU8 (s : List Char) : Option Nat :=
  let digits := match s with
    | '+' :: rest => rest
    | other => other
  if digits = [] then none
  else if digits.all Char.isDigit then
    let n := digits.foldl (fun acc c => acc * 10 + (c.toNat - 48)) 0
    if n ≤ 255 then some n else none
  else none

/-- Source `Node::parse` from `types.rs`: numeric column first, then the canonical
name table, then the alias tables. Errors are modelled as `none`. -/
def Node.parse (s : String) : Option Node :=
  match parseRustU8 s.data with
  | some n => Node.col n
  | none =>
    match s with
    -- canonical names
    | "GND" => some .GND
    | "SUPPLY_5V" => some .SUPPLY_5V
    | "SUPPLY_3V3" => some .SUPPLY_3V3
    | "DAC0" => some .DAC0
    | "DAC1" => some .DAC1
    | "ISENSE_MINUS" => some .ISENSE_MINUS
    | "ISENSE_PLUS" => some .ISENSE_PLUS
    | "ADC0" => some .ADC0
    | "ADC1" => some .ADC1
    | "ADC2" => some .ADC2
    | "ADC3" => some .ADC3
    | "NANO_D0" => some .NANO_D0
    | "NANO_D1" => some .NANO_D1
    | "NANO_D2" => some .NANO_D2
    | "NANO_D3" => some .NANO_D3
    | "NANO_D4" => some .NANO_D4
    | "NANO_D5" => some .NANO_D5
    | "NANO_D6" => some .NANO_D6
    | "NANO_D7" => some .NANO_D7
    | "NANO_D8" => some .NANO_D8
    | "NANO_D9" => some .NANO_D9
    | "NANO_D10" => some .NANO_D10
    | "NANO_D11" => some .NANO_D11
    | "NANO_D12" => some .NANO_D12
    | "NANO_D13" => some .NANO_D13
    | "NANO_A0" => some .NANO_A0
    | "NANO_A1" => some .NANO_A1
    | "NANO_A2" => some .NANO_A2
    | "NANO_A3" => some .NANO_A3
    | "NANO_A4" => some .NANO_A4
    | "NANO_A5" => some .NANO_A5
    | "NANO_A6" => some .NANO_A6
    | "NANO_A7" => some .NANO_A7
    | "NANO_RESET" => some .NANO_RESET
    | "NANO_AREF" => some .NANO_AREF
    | "RP_GPIO_0" => some .RP_GPIO_0
    | "RP_UART_Rx" => some .RP_UART_Rx
    | "RP_UART_Tx" => some .RP_UART_Tx
    -- aliases used in netlist output
    | "5V" => some .SUPPLY_5V
    | "3V3" => some .SUPPLY_3V3
    | "DAC0_5V" => some .DAC0
    | "DAC1_8V" => some .DAC1
    | "I_N" => some .ISENSE_MINUS
    | "I_P" => some .ISENSE_PLUS
    | "ADC0_5V" => some .ADC0
    | "ADC1_5V" => some .ADC1
    | "ADC2_5V" => some .ADC2
    | "ADC3_8V" => some .ADC3
    | "D0" => some .NANO_D0
    | "D1" => some .NANO_D1
    | "D2" => some .NANO_D2
    | "D3" => some .NANO_D3
    | "D4" => some .NANO_D4
    | "D5" => some .NANO_D5
    | "D6" => some .NANO_D6
    | "D7" => some .NANO_D7
    | "D8" => some .NANO_D8
    | "D9" => some .NANO_D9
    | "D10" => some .NANO_D10
    | "D11" => some .NANO_D11
    | "D12" => some .NANO_D12
    | "D13" => some .NANO_D13
    | "A0" => some .NANO_A0
    | "A1" => some .NANO_A1
    | "A2" => some .NANO_A2
    | "A3" => some .NANO_A3
    | "A4" => some .NANO_A4
    | "A5" => some .NANO_A5
    | "A6" => some .NANO_A6
    | "A7" => some .NANO_A7
    | "RESET" => some .NANO_RESET
    | "AREF" => some .NANO_AREF
    | "GPIO_0" => some .RP_GPIO_0
    | "UART_Rx" => some .RP_UART_Rx
    | "UART_Tx" => some .RP_UART_Tx
    | "DAC 0" => some .DAC0
    | "DAC 1" => some .DAC1
    | "DAC_0" => some .DAC0
    | "DAC_1" => some .DAC1
    | "I_NEG" => some .ISENSE_MINUS
    | "I_POS" => some .ISENSE_PLUS
    | "ADC_0" => some .ADC0
    | "ADC_1" => some .ADC1
    | "ADC_2" => some .ADC2
    | "ADC_3" => some .ADC3
    | "GPIO_16" => some .RP_UART_Rx
    | "GPIO_17" => some .RP_UART_Tx
    | _ => none

/-- Source `Display for Node` from `types.rs`: columns print as the decimal number,
named nodes print their debug (constructor) name. -/
def Node.toText : Node → String
  | .GND => "GND"
  | .SUPPLY_5V => "SUPPLY_5V"
  | .SUPPLY_3V3 => "SUPPLY_3V3"
  | .DAC0 => "DAC0"
  | .DAC1 => "DAC1"
  | .ISENSE_MINUS => "ISENSE_MINUS"
  | .ISENSE_PLUS => "ISENSE_PLUS"
  | .ADC0 => "ADC0"
  | .ADC1 => "ADC1"
  | .ADC2 => "ADC2"
  | .ADC3 => "ADC3"
  | .NANO_D0 => "NANO_D0"
  | .NANO_D1 => "NANO_D1"
  | .NANO_D2 => "NANO_D2"
  | .NANO_D3 => "NANO_D3"
  | .NANO_D4 => "NANO_D4"
  | .NANO_D5 => "NANO_D5"
  | .NANO_D6 => "NANO_D6"
  | .NANO_D7 => "NANO_D7"
  | .NANO_D8 => "NANO_D8"
  | .NANO_D9 => "NANO_D9"
  | .NANO_D10 => "NANO_D10"
  | .NANO_D11 => "NANO_D11"
  | .NANO_D12 => "NANO_D12"
  | .NANO_D13 => "NANO_D13"
  | .NANO_A0 => "NANO_A0"
  | .NANO_A1 => "NANO_A1"
  | .NANO_A2 => "NANO_A2"
  | .NANO_A3 => "NANO_A3"
  | .NANO_A4 => "NANO_A4"
  | .NANO_A5 => "NANO_A5"
  | .NANO_A6 => "NANO_A6"
  | .NANO_A7 => "NANO_A7"
  | .NANO_RESET => "NANO_RESET"
  | .NANO_AREF => "NANO_AREF"
  | .RP_GPIO_0 => "RP_GPIO_0"
  | .RP_UART_Rx => "RP_UART_Rx"
  | .RP_UART_Tx => "RP_UART_Tx"
  | .Column n => Nat.repr n

/-- Source `Color` from `types.rs`: three bytes r, g, b (each < 256 wherever it is
produced by the parser or the serializers). -/
structure Color where
  r : Nat
  g : Nat
  b : Nat
deriving DecidableEq, Repr

/-- Source `impl From<Color> for u32`: `(r << 16) | (g << 8) | b`. -/
def Color.toU32 (c : Color) : Nat :=
  (c.r <<< 16) ||| (c.g <<< 8) ||| c.b

/-- Source `Net` from `types.rs`. `index` and `number` are `u8` in the source. -/
structure Net where
  index : Nat
  number : Nat
  nodes : List Node
  special : Bool
  color : Color
  machine : Bool
  name : String
deriving DecidableEq, Repr

/-- Source `type Bridgelist = Vec<(Node, Node)>` from `types.rs`. -/
def Bridgelist := List (Node × Node)
deriving DecidableEq, Repr

/-- Equality of `Bridgelist` elements: the derived `PartialEq` of the Rust
tuple `(Node, Node)`, which compares component-wise in order. -/
def bridgePairEq (p q : Node × Node) : Bool :=
  decide (p.1 = q.1) && decide (p.2 = q.2)

/-- Source `SupplySwitchPos` from `types.rs`. -/
inductive SupplySwitchPos where
  | V8
  | V3_3
  | V5
deriving DecidableEq, Repr

/-- Source `Message` from `types.rs`: lines received from the device. -/
inductive Message where
  | Ok (seq : Option Nat)
  | Error (seq : Option Nat)
  | NetlistBegin
  | NetlistEnd
  | Net (net : Net)
  | Bridgelist (bl : Bridgelist)
  | SupplySwitch (pos : SupplySwitchPos)
deriving DecidableEq, Repr

/-- Source `Received` from `src/device.rs`: what the reader thread delivers over
the channel, or what `receive` synthesizes on a timeout. -/
inductive Received where
  | Message (m : Message)
  | Unrecognized (line : String)
  | Error (e : String)
deriving DecidableEq, Repr

/-! ## Wire grammar (`src/parser.rs`)

The nom parsers are embedded as functions on `List Char`. A result is
`done rest value`, `fail` (a nom error, recoverable by `alt`), or `crash`:
the Rust code aborted with a panic (out-of-bounds slice). `alt` recovers
from `fail` but a `crash` propagates unconditionally. -/

/-- Result of running one embedded nom parser. -/
inductive PResult (α : Type) where
  | crash : PResult α
  | fail : PResult α
  | done (rest : List Char) (value : α) : PResult α
deriving Repr

/-- Sequencing of embedded parsers (`crash` and `fail` propagate). -/
def pbind {α β : Type} (r : PResult α) (f : α → List Char → PResult β) : PResult β :=
  match r with
  | .crash => .crash
  | .fail => .fail
  | .done rest a => f a rest

/-- Source `nom::bytes::complete::tag`. -/
def ptag (t : String) (input : List Char) : PResult Unit :=
  if t.data.isPrefixOf input then .done (input.drop t.data.length) ()
  else .fail

/-- Source `nom::branch::alt` for two alternatives. -/
def palt {α : Type} (p q : List Char → PResult α) (input : List Char) : PResult α :=
  match p input with
  | .crash => .crash
  | .fail => q input
  | .done rest a => .done rest a

/-- Source `nom::character::complete::u8`: one or more decimal digits whose value
fits in a `u8`. -/
def pU8 (input : List Char) : PResult Nat :=
  let digits := input.takeWhile Char.isDigit
  if digits = [] then .fail
  else
    let n := digits.foldl (fun acc c => acc * 10 + (c.toNat - 48)) 0
    if n ≤ 255 then .done (input.dropWhile Char.isDigit) n else .fail

/-- Source `nom::character::complete::u32`. -/
def pU32 (input : List Char) : PResult Nat :=
  let digits := input.takeWhile Char.isDigit
  if digits = [] then .fail
  else
    let n := digits.foldl (fun acc c => acc * 10 + (c.toNat - 48)) 0
    if n ≤ 4294967295 then .done (input.dropWhile Char.isDigit) n else .fail

/-- Source `sequence_number` from `parser.rs`: an optional `:<u32>` suffix.
Without a leading colon it consumes nothing and yields `none`. -/
def sequence_number (input : List Char) : PResult (Option Nat) :=
  match input with
  | ':' :: stripped => pbind (pU32 stripped) fun n rest => .done rest (some n)
  | _ => .done input none

/-- Source `ok_response` from `parser.rs`. -/
def ok_response (input : List Char) : PResult (Option Nat) :=
  pbind (ptag "::ok" input) fun _ rest => sequence_number rest

/-- Source `error_response` from `parser.rs`. -/
def error_response (input : List Char) : PResult (Option Nat) :=
  pbind (ptag "::error" input) fun _ rest => sequence_number rest

/-- Source `netlist_begin` from `parser.rs`. -/
def netlist_begin (input : List Char) : PResult Unit :=
  ptag "::netlist-begin" input

/-- Source `netlist_end` from `parser.rs`. -/
def netlist_end (input : List Char) : PResult Unit :=
  ptag "::netlist-end" input

/-- Source `boolean` from `parser.rs`. -/
def pboolean (input : List Char) : PResult Bool :=
  palt (fun i => pbind (ptag "true" i) fun _ r => .done r true)
       (fun i => pbind (ptag "false" i) fun _ r => .done r false) input

/-- Value of a hexadecimal digit. -/
def hexDigitVal (c : Char) : Option Nat :=
  if c.isDigit then some (c.toNat - 48)
  else if 'a' ≤ c ∧ c ≤ 'f' then some (c.toNat - 87)
  else if 'A' ≤ c ∧ c ≤ 'F' then some (c.toNat - 55)
  else none

/-- Source `u8::from_str_radix(s, 16)` on a two-character slice, with the
`color_part` fallback: a malformed pair yields 0. A pair beginning with
`+` parses the remaining digit; a pair beginning with `-` yields 0 either
as `Ok(0)` (for `-0`) or through the error fallback. -/
def colorPairVal (c1 c2 : Char) : Nat :=
  match c1 with
  | '+' => (hexDigitVal c2).getD 0
  | '-' => 0
  | _ =>
    match hexDigitVal c1, hexDigitVal c2 with
    | some h, some l => 16 * h + l
    | _, _ => 0

/-- Source `color_part` from `parser.rs`: slices `&input[0..2]` before checking the
length, so an input shorter than two characters is an out-of-bounds slice —
a panic, modelled as `crash`. -/
def color_part (input : List Char) : PResult Nat :=
  match input with
  | c1 :: c2 :: rest => .done rest (colorPairVal c1 c2)
  | _ => .crash

/-- Source `color` from `parser.rs`: three consecutive `color_part`s. -/
def pcolor (input : List Char) : PResult Color :=
  pbind (color_part input) fun r rest =>
  pbind (color_part rest) fun g rest =>
  pbind (color_part rest) fun b rest =>
  .done rest ⟨r, g, b⟩

/-- Source `nom::bytes::complete::take_till` for the node-token delimiters. -/
def takeTillNodeDelim (input : List Char) : List Char × List Char :=
  (input.takeWhile (fun c => ¬(c = ';' ∨ c = ',' ∨ c = '-' ∨ c = ']')),
   input.dropWhile (fun c => ¬(c = ';' ∨ c = ',' ∨ c = '-' ∨ c = ']')))

/-- Source `node` from `parser.rs`: `map_res(take_till(...), Node::parse)`. -/
def pnode (input : List Char) : PResult Node :=
  let (tok, rest) := takeTillNodeDelim input
  match Node.parse (String.mk tok) with
  | some n => .done rest n
  | none => .fail

/-- Loop of `nom::multi::separated_list1`/`separated_list0` after the first
element: repeatedly a separator then an element, stopping (without
consuming) as soon as either fails. Fuel decreases with each separator, so
`input.length + 1` is always enough. -/
def sepListLoop {α : Type} (sep : String) (elem : List Char → PResult α) :
    Nat → List Char → List α → PResult (List α)
  | 0, input, acc => .done input acc.reverse
  | fuel + 1, input, acc =>
    match ptag sep input with
    | .crash => .crash
    | .fail => .done input acc.reverse
    | .done afterSep _ =>
      match elem afterSep with
      | .crash => .crash
      | .fail => .done input acc.reverse
      | .done rest a => sepListLoop sep elem fuel rest (a :: acc)

/-- Source `nom::multi::separated_list1`. -/
def sepList1 {α : Type} (sep : String) (elem : List Char → PResult α)
    (input : List Char) : PResult (List α) :=
  match elem input with
  | .crash => .crash
  | .fail => .fail
  | .done rest a => sepListLoop sep elem (input.length + 1) rest [a]

/-- Source `nom::multi::separated_list0`. -/
def sepList0 {α : Type} (sep : String) (elem : List Char → PResult α)
    (input : List Char) : PResult (List α) :=
  match elem input with
  | .crash => .crash
  | .fail => .done input []
  | .done rest a => sepListLoop sep elem (input.length + 1) rest [a]

/-- Source `nodes` from `parser.rs`. -/
def pnodes (input : List Char) : PResult (List Node) :=
  sepList1 ";" pnode input

/-- Source `name` from `parser.rs`: free text up to the closing bracket. -/
def pname (input : List Char) : PResult String :=
  .done (input.dropWhile (fun c => ¬(c = ']')))
        (String.mk (input.takeWhile (fun c => ¬(c = ']'))))

/-- Source `net` from `parser.rs`: the full `::net[...]` record. -/
def pnet (input : List Char) : PResult Net :=
  pbind (ptag "::net[" input) fun _ rest =>
  pbind (pU8 rest) fun index rest =>
  pbind (ptag "," rest) fun _ rest =>
  pbind (pU8 rest) fun number rest =>
  pbind (ptag "," rest) fun _ rest =>
  pbind (pnodes rest) fun nodes rest =>
  pbind (ptag "," rest) fun _ rest =>
  pbind (pboolean rest) fun special rest =>
  pbind (ptag "," rest) fun _ rest =>
  pbind (pcolor rest) fun color rest =>
  pbind (ptag "," rest) fun _ rest =>
  pbind (pboolean rest) fun machine rest =>
  pbind (ptag "," rest) fun _ rest =>
  pbind (pname rest) fun name rest =>
  pbind (ptag "]" rest) fun _ rest =>
  .done rest ⟨index, number, nodes, special, color, machine, name⟩

/-- Source `bridge` from `parser.rs`. -/
def pbridge (input : List Char) : PResult (Node × Node) :=
  pbind (pnode input) fun a rest =>
  pbind (ptag "-" rest) fun _ rest =>
  pbind (pnode rest) fun b rest =>
  .done rest (a, b)

/-- Source `bridges` from `parser.rs`. -/
def pbridges (input : List Char) : PResult Bridgelist :=
  sepList0 "," pbridge input

/-- Source `bridgelist` from `parser.rs`. -/
def pbridgelist (input : List Char) : PResult Bridgelist :=
  pbind (ptag "::bridgelist[" input) fun _ rest =>
  pbind (pbridges rest) fun bl rest =>
  pbind (ptag "]" rest) fun _ rest =>
  .done rest bl

/-- Source `supplyswitch_pos` from `parser.rs`. -/
def psupplyswitch_pos (input : List Char) : PResult SupplySwitchPos :=
  palt (fun i => pbind (ptag "3.3V" i) fun _ r => .done r SupplySwitchPos.V3_3)
    (palt (fun i => pbind (ptag "5V" i) fun _ r => .done r SupplySwitchPos.V5)
          (fun i => pbind (ptag "8V" i) fun _ r => .done r SupplySwitchPos.V8)) input

/-- Source `supplyswitch` from `parser.rs`. -/
def psupplyswitch (input : List Char) : PResult SupplySwitchPos :=
  pbind (ptag "::supplyswitch[" input) fun _ rest =>
  pbind (psupplyswitch_pos rest) fun pos rest =>
  pbind (ptag "]" rest) fun _ rest =>
  .done rest pos

/-- Source `message` from `parser.rs`: `all_consuming(alt(...))` over the seven
message shapes, in source order. -/
def pmessage (input : List Char) : PResult Message :=
  let inner :=
    palt (fun i => pbind (ok_response i) fun s r => .done r (Message.Ok s))
    (palt (fun i => pbind (error_response i) fun s r => .done r (Message.Error s))
    (palt (fun i => pbind (netlist_begin i) fun _ r => .done r Message.NetlistBegin)
    (palt (fun i => pbind (netlist_end i) fun _ r => .done r Message.NetlistEnd)
    (palt (fun i => pbind (pnet i) fun n r => .done r (Message.Net n))
    (palt (fun i => pbind (pbridgelist i) fun bl r => .done r (Message.Bridgelist bl))
          (fun i => pbind (psupplyswitch i) fun p r => .done r (Message.SupplySwitch p)))))))
  match inner input with
  | .crash => .crash
  | .fail => .fail
  | .done rest m => if rest = [] then .done [] m else .fail

/-- Source `parse_received` from `src/device.rs`: a parsed line becomes a
structured `Message`, a nom error becomes `Unrecognized` carrying the
original line. `none` models the process aborting on a panic inside the
parser — there is no `Received` value in that case. -/
def parse_received (line : String) : Option Received :=
  match pmessage line.data with
  | .done _ m => some (.Message m)
  | .fail => some (.Unrecognized line)
  | .crash => none

/-! ## Instructions (`src/device.rs`, `enum Instruction`) -/

/-- Lowercase hexadecimal digit. -/
def hexChar (n : Nat) : Char :=
  if n < 10 then Char.ofNat (48 + n) else Char.ofNat (87 + n)

/-- Two-digit lowercase hex (Rust `{:02x}` on a byte). -/
def hex2 (n : Nat) : String :=
  String.mk [hexChar (n / 16 % 16), hexChar (n % 16)]

/-- Six-digit lowercase hex (Rust `{:06x}` on a value below `2^24`). -/
def hex6 (n : Nat) : String :=
  String.mk [hexChar (n / 1048576 % 16), hexChar (n / 65536 % 16),
             hexChar (n / 4096 % 16), hexChar (n / 256 % 16),
             hexChar (n / 16 % 16), hexChar (n % 16)]

/-- Source `Display for Color` from `types.rs`: `#rrggbb`. -/
def Color.displayText (c : Color) : String :=
  "#" ++ hex2 c.r ++ hex2 c.g ++ hex2 c.b

/-- serde_json string escaping: quote, backslash, and control characters. -/
def escapeJsonChar (c : Char) : String :=
  if c = '"' then "\\\""
  else if c = '\\' then "\\\\"
  else if c.toNat = 8 then "\\b"
  else if c.toNat = 9 then "\\t"
  else if c.toNat = 10 then "\\n"
  else if c.toNat = 12 then "\\f"
  else if c.toNat = 13 then "\\r"
  else if c.toNat < 32 then "\\u00" ++ String.mk [hexChar (c.toNat / 16), hexChar (c.toNat % 16)]
  else String.singleton c

/-- serde_json serialization of a string value, quotes included. -/
def jsonString (s : String) : String :=
  "\"" ++ String.join (s.data.map escapeJsonChar) ++ "\""

/-- serde_json serialization of a bool. -/
def jsonBool (b : Bool) : String :=
  if b then "true" else "false"

/-- Opening brace character (written by code point to keep it out of
string literals). -/
def braceOpen : Char := Char.ofNat 123

/-- Closing brace character. -/
def braceClose : Char := Char.ofNat 125

/-- serde_json serialization of one `TmpNet` (`types.rs`): object fields in
declaration order, `nodes` joined by commas, `color` via its `#rrggbb`
display form. -/
def tmpNetJson (n : Net) : String :=
  String.singleton braceOpen
    ++ "\"index\":" ++ Nat.repr n.index
    ++ ",\"number\":" ++ Nat.repr n.number
    ++ ",\"nodes\":" ++ jsonString (String.intercalate "," (n.nodes.map Node.toText))
    ++ ",\"special\":" ++ jsonBool n.special
    ++ ",\"color\":" ++ jsonString n.color.displayText
    ++ ",\"machine\":" ++ jsonBool n.machine
    ++ ",\"name\":" ++ jsonString n.name
    ++ String.singleton braceClose

/-- serde_json serialization of `Vec<TmpNet>`. -/
def netsJson (nets : List Net) : String :=
  "[" ++ String.intercalate "," (nets.map tmpNetJson) ++ "]"

/-- Source `Instruction` from `src/device.rs`. -/
inductive Instruction where
  | GetNetlist
  | SetNetlist (nets : List Net)
  | GetBridgelist
  | SetBridgelist (bl : Bridgelist)
  | GetSupplySwitch
  | SetSupplySwitch (pos : SupplySwitchPos)
  | Lightnet (net_name : String) (color : Color)
  | GetChipStatus
  | Raw (instruction : String) (args : String)

/-- Source `Instruction::generate` from `src/device.rs`: the wire line for an
instruction and a sequence number. -/
def Instruction.generate (i : Instruction) (sequence_num : Nat) : String :=
  match i with
  | .Raw instr args =>
      "::" ++ instr ++ ":" ++ Nat.repr sequence_num ++ "[" ++ args ++ "]"
  | .GetNetlist =>
      "::getnetlist:" ++ Nat.repr sequence_num ++ "[]"
  | .SetNetlist nets =>
      "::netlist:" ++ Nat.repr sequence_num ++ netsJson nets
  | .GetBridgelist =>
      "::getbridgelist:" ++ Nat.repr sequence_num ++ "[]"
  | .SetBridgelist bl =>
      "::bridgelist:" ++ Nat.repr sequence_num ++ "["
        ++ String.intercalate "," (List.map (fun p => Node.toText p.1 ++ "-" ++ Node.toText p.2) bl)
        ++ "]"
  | .GetSupplySwitch =>
      "::getsupplyswitch:" ++ Nat.repr sequence_num ++ "[]"
  | .SetSupplySwitch pos =>
      "::setsupplyswitch:" ++ Nat.repr sequence_num ++ "["
        ++ (match pos with
            | .V8 => "8V"
            | .V3_3 => "3.3V"
            | .V5 => "5V")
        ++ "]"
  | .Lightnet net_name color =>
      "::lightnet:" ++ Nat.repr sequence_num ++ "[" ++ net_name ++ ": 0x"
        ++ hex6 color.toU32 ++ "]"
  | .GetChipStatus =>
      "::getchipstatus:" ++ Nat.repr sequence_num ++ "[]"

/-! ## Transport (`src/device.rs`, `Device`) -/

/-- Source `RESPONSE_TIMEOUT` (milliseconds). -/
def RESPONSE_TIMEOUT : Nat := 4000

/-- State of one `Device`: the `AtomicU32` sequence counter, the messages
the reader thread will deliver over the channel (in order), and the lines
written to the port so far. -/
structure DevState where
  sequence : Nat
  incoming : List Received
  sent : List String
deriving DecidableEq, Repr

/-- Source `Device::send_instruction`: `fetch_add(1)` on the `u32` counter (which
wraps modulo `2^32`), then one formatted line is written. Returns the
allocated sequence number. -/
def send_instruction (instr : Instruction) (st : DevState) : Nat × DevState :=
  let sequence_num := (st.sequence + 1) % 4294967296
  (sequence_num,
   { st with
     sequence := sequence_num,
     sent := st.sent ++ [instr.generate sequence_num] })

/-- Source `Device::receive`: the next channel message, or a synthesized timeout
error when the reader delivers nothing within `RESPONSE_TIMEOUT`. An
exhausted stream models a reader that delivers nothing more. -/
def receive : List Received → Received × List Received
  | [] => (.Error "Timeout while receiving reply", [])
  | r :: rest => (r, rest)

/-- Source `Device::receive_ok_capture`: drain messages until an acknowledgement
carrying exactly the awaited sequence number arrives. `Ok(Some seq))`
terminates successfully and `Error(Some seq)` as a request failure only
when `seq` equals the awaited number; every other `Message` — including
`Ok(None)`, `Error(None)` and acknowledgements for other sequence
numbers — is handed to the capture function; `Received::Error` aborts;
`Received::Unrecognized` is silently skipped (the final `_ => {}` arm). -/
def receive_ok_capture {σ : Type} (seqn : Nat) (cap : σ → Message → σ) :
    σ → List Received → Except String Unit × σ × List Received
  | s, [] => (.error "Timeout while receiving reply", s, [])
  | s, .Message (.Ok (some q)) :: rest =>
      if q = seqn then (.ok (), s, rest)
      else receive_ok_capture seqn cap (cap s (.Ok (some q))) rest
  | s, .Message (.Error (some q)) :: rest =>
      if q = seqn then (.error "Received error response", s, rest)
      else receive_ok_capture seqn cap (cap s (.Error (some q))) rest
  | s, .Message m :: rest => receive_ok_capture seqn cap (cap s m) rest
  | s, .Error e :: rest => (.error e, s, rest)
  | s, .Unrecognized _ :: rest => receive_ok_capture seqn cap s rest

/-- Source `Device::receive_ok`: `receive_ok_capture` with a no-op capture. -/
def receive_ok (seqn : Nat) (msgs : List Received) :
    Except String Unit × List Received :=
  let (r, _, rest) := receive_ok_capture seqn (fun s _ => s) () msgs
  (r, rest)

/-- The capture closure of `Device::netlist`: `NetlistBegin` and
`NetlistEnd` toggle the `begin` flag, and a `Net` record is pushed
unconditionally — the flag is never consulted. -/
def netlistCaptureStep : List Net × Bool → Message → List Net × Bool
  | (result, _), .NetlistBegin => (result, true)
  | (result, _), .NetlistEnd => (result, false)
  | (result, b), .Net n => (result ++ [n], b)
  | st, _ => st

/-- Source `Device::netlist`: send `GetNetlist`, then await the acknowledgement
while collecting via `netlistCaptureStep`. -/
def netlistOp (st : DevState) : Except String (List Net) × DevState :=
  let (seqn, st1) := send_instruction .GetNetlist st
  match receive_ok_capture seqn netlistCaptureStep ([], false) st1.incoming with
  | (.ok (), (result, _), rest) => (.ok result, { st1 with incoming := rest })
  | (.error e, _, rest) => (.error e, { st1 with incoming := rest })

/-- Source `Device::set_supply_switch`: send `SetSupplySwitch`, then
`receive_ok`. -/
def set_supply_switch (pos : SupplySwitchPos) (st : DevState) :
    Except String Unit × DevState :=
  let (seqn, st1) := send_instruction (.SetSupplySwitch pos) st
  let (r, rest) := receive_ok seqn st1.incoming
  (r, { st1 with incoming := rest })

/-- Source `Device::set_bridgelist`. -/
def set_bridgelist (bl : Bridgelist) (st : DevState) :
    Except String Unit × DevState :=
  let (seqn, st1) := send_instruction (.SetBridgelist bl) st
  let (r, rest) := receive_ok seqn st1.incoming
  (r, { st1 with incoming := rest })

/-- Source `Device::lightnet`: sends the instruction and returns `Ok(())` at
once — no reception of any kind happens. -/
def lightnet (net_name : String) (color : Color) (st : DevState) :
    Except String Unit × DevState :=
  let (_, st1) := send_instruction (.Lightnet net_name color) st
  (.ok (), st1)

/-- The pre-acknowledgement loop of `Device::bridgelist`: receive until a
`Bridgelist` snapshot arrives; every other reception — `Received::Error`
included — is logged as a warning and the loop continues. `none` models
the loop never returning (it keeps waiting through one timeout after
another when no snapshot ever arrives). -/
def bridgelistLoop : List Received → Option (Bridgelist × List Received)
  | [] => none
  | .Message (.Bridgelist bl) :: rest => some (bl, rest)
  | _ :: rest => bridgelistLoop rest

/-- Source `Device::bridgelist`: send `GetBridgelist`, wait for the snapshot
(discarding everything else), then `receive_ok`. -/
def bridgelistOp (st : DevState) : Option (Except String Bridgelist × DevState) :=
  let (seqn, st1) := send_instruction .GetBridgelist st
  match bridgelistLoop st1.incoming with
  | none => none
  | some (bl, rest) =>
    let (r, rest2) := receive_ok seqn rest
    match r with
    | .ok () => some (.ok bl, { st1 with incoming := rest2 })
    | .error e => some (.error e, { st1 with incoming := rest2 })

/-- Timed view of awaiting an acknowledgement (`receive_ok` through
`Device::receive`): the stream pairs each delivery with its arrival delay
in milliseconds. A delay beyond `RESPONSE_TIMEOUT` means `recv_timeout`
fires first; otherwise the wait so far grows by the delay and the message
is handled exactly as in `receive_ok_capture`. Returns the outcome and
the total elapsed wait. -/
def await_ack_timed (seqn : Nat) : List (Nat × Received) → Except String Unit × Nat
  | [] => (.error "Timeout while receiving reply", RESPONSE_TIMEOUT)
  | (d, r) :: rest =>
    if RESPONSE_TIMEOUT < d then (.error "Timeout while receiving reply", RESPONSE_TIMEOUT)
    else
      match r with
      | .Message (.Ok (some q)) =>
          if q = seqn then (.ok (), d)
          else
            let (res, t) := await_ack_timed seqn rest
            (res, d + t)
      | .Message (.Error (some q)) =>
          if q = seqn then (.error "Received error response", d)
          else
            let (res, t) := await_ack_timed seqn rest
            (res, d + t)
      | .Message _ =>
          let (res, t) := await_ack_timed seqn rest
          (res, d + t)
      | .Error e => (.error e, d)
      | .Unrecognized _ =>
          let (res, t) := await_ack_timed seqn rest
          (res, d + t)

/-- Device state right after `Device::new` (`AtomicU32::new(0)`, nothing
received or sent yet). -/
def deviceNewState : DevState where
  sequence := 0
  incoming := []
  sent := []

/-- The device state after `n` instructions have been sent. -/
def stateAfterSends : Nat → DevState
  | 0 => deviceNewState
  | n + 1 => (send_instruction .GetNetlist (stateAfterSends n)).2

/-- The sequence number issued by the `(n+1)`-th `send_instruction` on one
`Device` instance. -/
def issuedSeq (n : Nat) : Nat :=
  (send_instruction .GetNetlist (stateAfterSends n)).1

/-! ## Device Manager (`src/device_manager.rs`) -/

/-- Source `UsbPortInfo` (from the serialport crate, as used by `list_ports`). -/
structure UsbPortInfo where
  vid : Nat
  pid : Nat
  serial_number : Option String
  manufacturer : Option String
  product : Option String
deriving DecidableEq, Repr

/-- Source `SerialPortType`: USB ports carry an info record; everything else is
ignored by `list_ports`. -/
inductive SerialPortType where
  | UsbPort (info : UsbPortInfo)
  | OtherPort
deriving DecidableEq, Repr

/-- Source `SerialPortInfo`. -/
structure SerialPortInfo where
  port_name : String
  port_type : SerialPortType
deriving DecidableEq, Repr

/-- Source `PortRole` from `device_manager.rs`. -/
inductive PortRole where
  | Unknown
  | JumperlessPrimary
  | JumperlessArduino
deriving DecidableEq, Repr

/-- Source `FoundPort` from `device_manager.rs`. -/
structure FoundPort where
  info : SerialPortInfo
  role : PortRole
deriving DecidableEq, Repr

/-- Rust `str::starts_with`, character-level. -/
def strStartsWith (s p : String) : Bool :=
  p.data.isPrefixOf s.data

/-- Rust byte-lexicographic `<` on strings (character-level; identical on
ASCII port names). -/
def charListLt : List Char → List Char → Bool
  | _, [] => false
  | [], _ :: _ => true
  | a :: as, b :: bs =>
    if a < b then true
    else if b < a then false
    else charListLt as bs

/-- Comparison `a < b` on port names, as Rust's `String` ordering. -/
def portNameLt (a b : String) : Bool :=
  charListLt a.data b.data

/-- Source `fixup_mac_ports` from `device_manager.rs`: when both a `/dev/cu.` and
a `/dev/tty.` device node are present, keep only the `/dev/cu.` ones. -/
def fixup_mac_ports (infos : List SerialPortInfo) : List SerialPortInfo :=
  let cu := infos.any fun i => strStartsWith i.port_name "/dev/cu."
  let tty := infos.any fun i => strStartsWith i.port_name "/dev/tty."
  if cu && tty then infos.filter fun i => strStartsWith i.port_name "/dev/cu."
  else infos

/-- The per-group body of `DeviceManager::list_ports` (lines 120-169): for
one USB vendor/product id group, check the advertised product name, apply
`fixup_mac_ports`, then assign roles by count. With two ports the source
computes `if a > b { (1, 0) } else { (0, 1) }` over
`(infos[0].port_name, infos[1].port_name)`, so the port at the *smaller*
name becomes Primary. More than two ports: logged anomaly, no roles. -/
def process_group (infos : List SerialPortInfo) : List FoundPort :=
  match infos.head? with
  | none => []
  | some first =>
    match first.port_type with
    | .OtherPort => []
    | .UsbPort u =>
      if u.product = some "Jumperless" then
        match fixup_mac_ports infos with
        | [i] => [⟨i, .JumperlessPrimary⟩]
        | [i0, i1] =>
          if portNameLt i1.port_name i0.port_name then
            [⟨i1, .JumperlessPrimary⟩, ⟨i0, .JumperlessArduino⟩]
          else
            [⟨i0, .JumperlessPrimary⟩, ⟨i1, .JumperlessArduino⟩]
        | _ => []
      else
        infos.map (⟨·, .Unknown⟩)

/-- Source `DeviceManager::device` (acquisition step of `with_device`): reuse the
stored device when it exists and its reader is alive, otherwise attempt to
open one; an open failure leaves the stored device untouched. The manager's
stored device after the step is returned alongside the result. -/
def acquire {D : Type} (alive : D → Bool) (openDev : Except String D)
    (dev0 : Option D) : Except String D × Option D :=
  match dev0 with
  | some d =>
    if alive d then (.ok d, some d)
    else
      match openDev with
      | .ok d' => (.ok d', some d')
      | .error e => (.error e, some d)
  | none =>
    match openDev with
    | .ok d' => (.ok d', some d')
    | .error e => (.error e, none)

/-- Source `DeviceManager::with_device`: acquire, then run the closure; a closure
failure triggers `forget_device` (the stored device becomes `None`) and
the error is returned unchanged; a closure success keeps the (possibly
mutated) device and returns the value unchanged. -/
def with_device {D T : Type} (alive : D → Bool) (openDev : Except String D)
    (f : D → Except String T × D) (dev0 : Option D) :
    Except String T × Option D :=
  match acquire alive openDev dev0 with
  | (.error e, dev1) => (.error e, dev1)
  | (.ok d, _) =>
    match f d with
    | (.error e, _) => (.error e, none)
    | (.ok v, d') => (.ok v, some d')

/-! ## Concrete scenario data -/

/-- Does a `Received` carry a `Bridgelist` snapshot? -/
def isBridgelistMsg : Received → Bool
  | .Message (.Bridgelist _) => true
  | _ => false

/-- A sample net record used in concrete scenarios. -/
def sampleNet : Net :=
  ⟨9, 9, [Node.Column 5], false, ⟨1, 2, 3⟩, false, "X"⟩

/-- USB descriptor advertising the hardware identity string. -/
def jumperlessUsb : UsbPortInfo :=
  ⟨44203, 4882, some "0", some "Architeuthis Flux", some "Jumperless"⟩

/-- First of two discovered ports of one device. -/
def portA : SerialPortInfo := ⟨"/dev/ttyACM0", .UsbPort jumperlessUsb⟩

/-- Second of two discovered ports of one device. -/
def portB : SerialPortInfo := ⟨"/dev/ttyACM1", .UsbPort jumperlessUsb⟩

/-- Receptions of every non-snapshot kind, as they may precede a
`Bridgelist` snapshot: reader IO failure, receive timeout, a stray
acknowledgement, and an unparseable line. -/
def preW : List Received :=
  [Received.Error "Read from serial port failed",
   Received.Error "Timeout while receiving reply",
   Received.Message (Message.Ok none),
   Received.Unrecognized "noise"]

/-! ## Helper lemmas -/

/-- Unequal strings have unequal character lists. -/
theorem string_data_ne (a b : String) (h : a ≠ b) : a.data ≠ b.data :=
  fun hd => h (by cases a; cases b; exact congrArg String.mk hd)

/-- Totality of the byte-lexicographic string order on distinct lists. -/
theorem charListLt_total : ∀ (as bs : List Char), as ≠ bs →
    charListLt as bs = true ∨ charListLt bs as = true
  | [], [], h => absurd rfl h
  | [], _ :: _, _ => Or.inl rfl
  | _ :: _, [], _ => Or.inr rfl
  | a :: as, b :: bs, h => by
    by_cases hab : a < b
    · left; simp [charListLt, hab]
    · by_cases hba : b < a
      · right; simp [charListLt, hba]
      · have hcc : a = b := le_antisymm (not_lt.mp hba) (not_lt.mp hab)
        subst hcc
        have hne : as ≠ bs := fun hh => h (by rw [hh])
        have htot := charListLt_total as bs hne
        simpa [charListLt] using htot

/-- A successful `receive_ok_capture` consumed an `Ok` acknowledgement
carrying exactly the awaited sequence number. -/
theorem receive_ok_capture_ok_mem {σ : Type} (seqn : Nat) (cap : σ → Message → σ) :
    ∀ (msgs : List Received) (s s' : σ) (rest : List Received),
      receive_ok_capture seqn cap s msgs = (.ok (), s', rest) →
      Received.Message (Message.Ok (some seqn)) ∈ msgs := by
  intro msgs
  induction msgs with
  | nil => intro s s' rest h; simp [receive_ok_capture] at h
  | cons r tail ih =>
    intro s s' rest h
    rcases r with m | l | e
    · rcases m with oq | oq | _ | _ | n | bl | sp
      · rcases oq with _ | q
        · simp only [receive_ok_capture] at h
          exact List.mem_cons_of_mem _ (ih _ _ _ h)
        · by_cases hq : q = seqn
          · subst hq; exact List.mem_cons_self _ _
          · simp only [receive_ok_capture, if_neg hq] at h
            exact List.mem_cons_of_mem _ (ih _ _ _ h)
      · rcases oq with _ | q
        · simp only [receive_ok_capture] at h
          exact List.mem_cons_of_mem _ (ih _ _ _ h)
        · by_cases hq : q = seqn
          · subst hq; simp [receive_ok_capture] at h
          · simp only [receive_ok_capture, if_neg hq] at h
            exact List.mem_cons_of_mem _ (ih _ _ _ h)
      · simp only [receive_ok_capture] at h
        exact List.mem_cons_of_mem _ (ih _ _ _ h)
      · simp only [receive_ok_capture] at h
        exact List.mem_cons_of_mem _ (ih _ _ _ h)
      · simp only [receive_ok_capture] at h
        exact List.mem_cons_of_mem _ (ih _ _ _ h)
      · simp only [receive_ok_capture] at h
        exact List.mem_cons_of_mem _ (ih _ _ _ h)
      · simp only [receive_ok_capture] at h
        exact List.mem_cons_of_mem _ (ih _ _ _ h)
    · simp only [receive_ok_capture] at h
      exact List.mem_cons_of_mem _ (ih _ _ _ h)
    · simp [receive_ok_capture] at h

/-- The sequence counter after `n` sends. -/
theorem stateAfterSends_sequence : ∀ n, (stateAfterSends n).sequence = n % 4294967296
  | 0 => rfl
  | n + 1 => by
    have ih := stateAfterSends_sequence n
    simp [stateAfterSends, send_instruction, ih]

/-- Characterization of the issued sequence numbers. -/
theorem issuedSeq_eq (n : Nat) : issuedSeq n = (n + 1) % 4294967296 := by
  have hs := stateAfterSends_sequence n
  simp [issuedSeq, send_instruction, hs]

/-- The pre-acknowledgement loop of `bridgelist` skips any prefix free of
`Bridgelist` snapshots. -/
theorem bridgelistLoop_skips (pre : List Received)
    (hp : ∀ r ∈ pre, isBridgelistMsg r = false) (tail : List Received) :
    bridgelistLoop (pre ++ tail) = bridgelistLoop tail := by
  induction pre with
  | nil => rfl
  | cons r pre ih =>
    have hr := hp r (List.mem_cons_self _ _)
    have hrest : ∀ x ∈ pre, isBridgelistMsg x = false :=
      fun x hx => hp x (List.mem_cons_of_mem _ hx)
    rcases r with m | l | e
    · rcases m with oq | oq | _ | _ | n | bl | sp
      · simpa [bridgelistLoop] using ih hrest
      · simpa [bridgelistLoop] using ih hrest
      · simpa [bridgelistLoop] using ih hrest
      · simpa [bridgelistLoop] using ih hrest
      · simpa [bridgelistLoop] using ih hrest
      · simp [isBridgelistMsg] at hr
      · simpa [bridgelistLoop] using ih hrest
    · simpa [bridgelistLoop] using ih hrest
    · simpa [bridgelistLoop] using ih hrest

/-! ## Claim theorems -/

/-- C1 counterexample: two Jumperless ports named `/dev/ttyACM0` and
`/dev/ttyACM1` (in either discovery order): `list_ports` assigns Primary
to `/dev/ttyACM0`, the lexicographically *smaller* name — not the greater
one, as claimed. -/
theorem primary_role_lexicographic_cx :
    process_group [portA, portB]
      = [⟨portA, PortRole.JumperlessPrimary⟩, ⟨portB, PortRole.JumperlessArduino⟩]
    ∧ process_group [portB, portA]
      = [⟨portA, PortRole.JumperlessPrimary⟩, ⟨portB, PortRole.JumperlessArduino⟩]
    ∧ portNameLt portA.port_name portB.port_name = true :=
  ⟨rfl, rfl, rfl⟩

/-- C1 (amended): in a two-port group advertising the product name
"Jumperless" (with distinct names, untouched by the macOS fixup), the
port with the lexicographically *smaller* name is Primary and the other
is the Arduino (secondary control) channel; a single-port group gets
Primary. -/
theorem primary_role_smaller_name (i0 i1 : SerialPortInfo) (u : UsbPortInfo)
    (h0 : i0.port_type = SerialPortType.UsbPort u)
    (hp : u.product = some "Jumperless")
    (hfix : fixup_mac_ports [i0, i1] = [i0, i1])
    (hne : i0.port_name ≠ i1.port_name) :
    (∃ p q, process_group [i0, i1]
        = [⟨p, PortRole.JumperlessPrimary⟩, ⟨q, PortRole.JumperlessArduino⟩]
      ∧ portNameLt p.port_name q.port_name = true
      ∧ ((p = i0 ∧ q = i1) ∨ (p = i1 ∧ q = i0)))
    ∧ (∀ (j : SerialPortInfo) (v : UsbPortInfo),
        j.port_type = SerialPortType.UsbPort v → v.product = some "Jumperless" →
        fixup_mac_ports [j] = [j] →
        process_group [j] = [⟨j, PortRole.JumperlessPrimary⟩]) := by
  constructor
  · have hdne := string_data_ne _ _ hne
    rcases hlt : portNameLt i1.port_name i0.port_name with _ | _
    · refine ⟨i0, i1, ?_, ?_, Or.inl ⟨rfl, rfl⟩⟩
      · simp [process_group, h0, hp, hfix, hlt]
      · rcases charListLt_total _ _ hdne with h | h
        · exact h
        · exact absurd h (by simpa [portNameLt] using hlt)
    · refine ⟨i1, i0, ?_, hlt, Or.inr ⟨rfl, rfl⟩⟩
      simp [process_group, h0, hp, hfix, hlt]
  · intro j v hj hv hfj
    simp [process_group, hj, hv, hfj]

/-- C1 witness: the amended statement at the two concrete ports. -/
theorem primary_role_smaller_name_witness :
    (∃ p q, process_group [portA, portB]
        = [⟨p, PortRole.JumperlessPrimary⟩, ⟨q, PortRole.JumperlessArduino⟩]
      ∧ portNameLt p.port_name q.port_name = true
      ∧ ((p = portA ∧ q = portB) ∨ (p = portB ∧ q = portA)))
    ∧ (∀ (j : SerialPortInfo) (v : UsbPortInfo),
        j.port_type = SerialPortType.UsbPort v → v.product = some "Jumperless" →
        fixup_mac_ports [j] = [j] →
        process_group [j] = [⟨j, PortRole.JumperlessPrimary⟩]) :=
  primary_role_smaller_name portA portB jumperlessUsb rfl rfl (by decide) (by decide)

/-- C2: the capture closure of `netlist()` pushes a `Net` record delivered
*before* `NetlistBegin` all the same — the `begin` flag is written but
never read — so the out-of-bracket record appears in the returned list,
where the claim requires it to be ignored. -/
theorem netlist_out_of_bracket_kept :
    netlistOp ⟨0, [Received.Message (Message.Net sampleNet),
                   Received.Message Message.NetlistBegin,
                   Received.Message Message.NetlistEnd,
                   Received.Message (Message.Ok (some 1))], []⟩
      = (Except.ok [sampleNet], ⟨1, [], ["::getnetlist:1[]"]⟩) := rfl

/-- C3: the line-parsing step is not total: on a `::net[...]` line whose
color field is cut short, `color_part` slices two characters out of a
shorter remainder — an out-of-bounds slice, i.e. a panic (`none` here) —
while an ordinary unparseable line still yields `Unrecognized`. -/
theorem parse_received_crash_on_short_color :
    parse_received "::net[1,1,GND,true,0" = none
    ∧ parse_received "::foo" = some (Received.Unrecognized "::foo") :=
  ⟨rfl, rfl⟩

/-- C4 counterexample: awaiting sequence number 5, a received bare `::ok`
(`Ok(None)`) does not terminate the wait: it is handed to the collector
and the wait continues (here: times out), where the claim requires
successful termination. -/
theorem bare_ack_not_matched_cx :
    receive_ok_capture 5 (fun (s : List Message) m => s ++ [m]) []
        [Received.Message (Message.Ok none)]
      = (.error "Timeout while receiving reply", [Message.Ok none], []) := rfl

/-- C4 (amended): the sequence suffix is optional in the grammar — a bare
`::ok` / `::error` parses as `Ok(None)` / `Error(None)` — but
`receive_ok_capture` does not match bare acknowledgements: they are handed
to the collector and the wait continues; only an acknowledgement carrying
exactly the awaited sequence number terminates the wait. -/
theorem bare_ack_captured_and_wait_continues :
    parse_received "::ok" = some (Received.Message (Message.Ok none))
    ∧ parse_received "::error" = some (Received.Message (Message.Error none))
    ∧ (∀ (σ : Type) (seqn : Nat) (cap : σ → Message → σ) (s : σ) (rest : List Received),
        receive_ok_capture seqn cap s (Received.Message (Message.Ok none) :: rest)
          = receive_ok_capture seqn cap (cap s (Message.Ok none)) rest)
    ∧ (∀ (σ : Type) (seqn : Nat) (cap : σ → Message → σ) (s : σ) (rest : List Received),
        receive_ok_capture seqn cap s (Received.Message (Message.Error none) :: rest)
          = receive_ok_capture seqn cap (cap s (Message.Error none)) rest)
    ∧ (∀ (σ : Type) (seqn : Nat) (cap : σ → Message → σ) (s : σ) (rest : List Received),
        receive_ok_capture seqn cap s (Received.Message (Message.Ok (some seqn)) :: rest)
          = (.ok (), s, rest)) := by
  refine ⟨rfl, rfl, ?_, ?_, ?_⟩ <;> intros <;> simp [receive_ok_capture]

/-- C5 counterexample: `lightnet()` returns success on a device whose
reader delivers nothing at all — no acknowledgement message is consumed,
where the claim requires one for the sent sequence number. -/
theorem lightnet_no_ack_cx :
    lightnet "foo" ⟨0, 0, 0⟩ ⟨0, [], []⟩
      = (Except.ok (), ⟨1, [], ["::lightnet:1[foo: 0x000000]"]⟩) := rfl

/-- C5 (amended): composite operations built on `receive_ok` (here
`set_supply_switch`, representative of the cited sources) return success
only if an `Ok` acknowledgement carrying their sequence number was in the
inbound stream; `lightnet()` alone sends its instruction and returns
success at once, consuming nothing. -/
theorem composite_ack_discipline :
    (∀ (pos : SupplySwitchPos) (st : DevState),
      (set_supply_switch pos st).1 = Except.ok () →
      Received.Message (Message.Ok (some ((st.sequence + 1) % 4294967296))) ∈ st.incoming)
    ∧ (∀ (nm : String) (c : Color) (st : DevState),
        (lightnet nm c st).1 = Except.ok ()
        ∧ (lightnet nm c st).2.incoming = st.incoming) := by
  constructor
  · intro pos st h
    rcases hrc : receive_ok_capture ((st.sequence + 1) % 4294967296)
        (fun s _ => s) () st.incoming with ⟨r, s', rest⟩
    have hr : r = Except.ok () := by
      simpa [set_supply_switch, send_instruction, receive_ok, hrc] using h
    rw [hr] at hrc
    exact receive_ok_capture_ok_mem _ _ _ _ _ _ hrc
  · intro nm c st
    exact ⟨rfl, rfl⟩

/-- C5 witness: the amended statement at concrete inputs. -/
theorem composite_ack_discipline_witness :
    Received.Message (Message.Ok (some ((0 + 1) % 4294967296)))
      ∈ [Received.Message (Message.Ok (some 1))]
    ∧ ((lightnet "foo" ⟨0, 0, 0⟩ ⟨0, [], []⟩).1 = Except.ok ()
        ∧ (lightnet "foo" ⟨0, 0, 0⟩ ⟨0, [], []⟩).2.incoming
          = (DevState.mk 0 [] []).incoming) :=
  ⟨composite_ack_discipline.1 SupplySwitchPos.V5
      ⟨0, [Received.Message (Message.Ok (some 1))], []⟩ rfl,
   composite_ack_discipline.2 "foo" ⟨0, 0, 0⟩ ⟨0, [], []⟩⟩

/-- C6 counterexample: under the equality of `Bridgelist` elements (the
derived tuple equality), `(GND, 1)` and `(1, GND)` are *not* equal. -/
theorem bridge_pair_eq_not_symmetric_cx :
    bridgePairEq (Node.GND, Node.Column 1) (Node.Column 1, Node.GND) = false := by
  decide

/-- C6 (amended): `Bridgelist` pair equality is component-wise in order:
`(a, b) == (b, a)` holds exactly when `a = b`. -/
theorem bridge_pair_eq_order_sensitive :
    ∀ a b : Node, bridgePairEq (a, b) (b, a) = decide (a = b) := by
  intro a b
  by_cases h : a = b <;> simp [bridgePairEq, h]

/-- C7 counterexample: the `u32` sequence counter wraps: the `2^32`-th
`send_instruction` on one Transport instance is issued sequence number 0
(the claim says 0 is never issued, for any number of instructions). -/
theorem sequence_wraps_to_zero_cx : issuedSeq 4294967295 = 0 := by
  rw [issuedSeq_eq]

/-- C7 (amended): the `(n+1)`-th instruction is issued sequence number
`n + 1` as long as fewer than `2^32` instructions have been sent — so the
sequence starts at 1, is strictly increasing and avoids 0 up to (but not
past) the counter wrap. -/
theorem sequence_strictly_increasing_before_wrap (n : Nat)
    (h : n + 1 < 4294967296) : issuedSeq n = n + 1 := by
  rw [issuedSeq_eq]
  omega

/-- C7 witness: the third instruction gets sequence number 3. -/
theorem sequence_strictly_increasing_before_wrap_witness :
    2 + 1 < 4294967296 ∧ issuedSeq 2 = 2 + 1 :=
  ⟨by norm_num, sequence_strictly_increasing_before_wrap 2 (by norm_num)⟩

/-- C8: when acquisition yields a device, a closure failure makes
`with_device` forget the stored Transport (it becomes `none`, so the next
call re-opens from scratch) and returns the error unchanged; a closure
success keeps the (possibly mutated) device and returns the value
unchanged. -/
theorem with_device_forgets_on_failure (D T : Type) (alive : D → Bool)
    (od : Except String D) (dev0 : Option D) (f : D → Except String T × D)
    (d : D) (dev1 : Option D)
    (hacq : acquire alive od dev0 = (.ok d, dev1)) :
    (∀ (e : String) (d' : D), f d = (.error e, d') →
        with_device alive od f dev0 = (.error e, none))
    ∧ (∀ (v : T) (d' : D), f d = (.ok v, d') →
        with_device alive od f dev0 = (.ok v, some d')) := by
  constructor
  · intro e d' hf; simp [with_device, hacq, hf]
  · intro v d' hf; simp [with_device, hacq, hf]

/-- C8 witness: both outcomes at a concrete manager state. -/
theorem with_device_forgets_on_failure_witness :
    (with_device (fun _ => true) (Except.error "no")
        (fun _ => ((Except.error "boom" : Except String Nat), true)) (some true)
      = (Except.error "boom", none))
    ∧ (with_device (fun _ => true) (Except.error "no")
        (fun d => ((Except.ok 7 : Except String Nat), d)) (some true)
      = (Except.ok 7, some true)) :=
  ⟨(with_device_forgets_on_failure Bool Nat (fun _ => true) (Except.error "no")
      (some true) (fun _ => (Except.error "boom", true)) true (some true) rfl).1
      "boom" true rfl,
   (with_device_forgets_on_failure Bool Nat (fun _ => true) (Except.error "no")
      (some true) (fun d => (Except.ok 7, d)) true (some true) rfl).2
      7 true rfl⟩

/-- C9 counterexample: a reader delivering 100 non-matching messages at
3999 ms intervals keeps the wait alive for 403900 ms — far beyond any
fixed "several seconds" bound (compare 60000 ms) — before the timeout
finally fires, refuting a fixed *total* bound that holds regardless of
delivered messages. -/
theorem await_ack_total_wait_unbounded_cx :
    await_ack_timed 1
        (List.replicate 100 (3999, Received.Message (Message.SupplySwitch SupplySwitchPos.V5)))
      = (Except.error "Timeout while receiving reply", 403900)
    ∧ 60000 < 403900 :=
  ⟨rfl, by norm_num⟩

/-- C9 (amended): the wait is bounded per reception, not in total: each
receive waits at most `RESPONSE_TIMEOUT` (4000 ms), so a silent reader
produces a timeout failure after one window, and a stream of `k`
deliveries keeps the total wait below `4000 * (k + 1)` — a bound that
grows with `k` instead of being a fixed constant. -/
theorem await_ack_per_receive_bound :
    (∀ (seqn : Nat) (stream : List (Nat × Received)),
      (await_ack_timed seqn stream).2 ≤ RESPONSE_TIMEOUT * (stream.length + 1))
    ∧ (∀ seqn : Nat,
        await_ack_timed seqn []
          = (Except.error "Timeout while receiving reply", RESPONSE_TIMEOUT)) := by
  constructor
  · intro seqn stream
    induction stream with
    | nil => simp [await_ack_timed, RESPONSE_TIMEOUT]
    | cons p tail ih =>
      obtain ⟨d, r⟩ := p
      rcases hat : await_ack_timed seqn tail with ⟨res, t⟩
      rw [hat] at ih
      simp only [RESPONSE_TIMEOUT] at ih ⊢
      simp only [await_ack_timed, RESPONSE_TIMEOUT, hat, List.length_cons]
      by_cases hd : 4000 < d
      · simp [if_pos hd]
      · simp only [if_neg hd]
        simp only [Nat.not_lt] at hd
        rcases r with m | l | e
        · rcases m with oq | oq | _ | _ | n | bl | sp
          · rcases oq with _ | q
            · simp; omega
            · by_cases hq : q = seqn
              · simp [hq]; omega
              · simp [hq]; omega
          · rcases oq with _ | q
            · simp; omega
            · by_cases hq : q = seqn
              · simp [hq]; omega
              · simp [hq]; omega
          · simp; omega
          · simp; omega
          · simp; omega
          · simp; omega
          · simp; omega
        · simp; omega
        · simp; omega
  · intro seqn; rfl

/-- C10: every reception preceding the `Bridgelist` snapshot — reader
error messages, receive timeouts, stray acknowledgements, unparseable
lines — is discarded and the wait continues: the operation's outcome is
the same as if the snapshot had arrived first, and the pre-ack loop
resolves to the snapshot. A transport error in this phase never produces
an error return. -/
theorem bridgelist_wait_discards_everything (pre : List Received)
    (hp : ∀ r ∈ pre, isBridgelistMsg r = false) (bl : Bridgelist)
    (post : List Received) (sq : Nat) (sent : List String) :
    bridgelistOp ⟨sq, pre ++ (Received.Message (Message.Bridgelist bl) :: post), sent⟩
      = bridgelistOp ⟨sq, Received.Message (Message.Bridgelist bl) :: post, sent⟩
    ∧ bridgelistLoop (pre ++ (Received.Message (Message.Bridgelist bl) :: post))
      = some (bl, post) := by
  have hloop := bridgelistLoop_skips pre hp
    (Received.Message (Message.Bridgelist bl) :: post)
  constructor
  · simp [bridgelistOp, send_instruction, hloop]
  · rw [hloop]; rfl

/-- C10 witness: a concrete prefix holding one reception of each
non-snapshot kind. -/
theorem bridgelist_wait_discards_everything_witness :
    bridgelistOp ⟨0, preW ++ (Received.Message (Message.Bridgelist [(Node.GND, Node.Column 3)])
          :: [Received.Message (Message.Ok (some 1))]), []⟩
      = bridgelistOp ⟨0, Received.Message (Message.Bridgelist [(Node.GND, Node.Column 3)])
          :: [Received.Message (Message.Ok (some 1))], []⟩
    ∧ bridgelistLoop (preW ++ (Received.Message (Message.Bridgelist [(Node.GND, Node.Column 3)])
          :: [Received.Message (Message.Ok (some 1))]))
      = some ([(Node.GND, Node.Column 3)], [Received.Message (Message.Ok (some 1))]) :=
  bridgelist_wait_discards_everything preW (by decide)
    [(Node.GND, Node.Column 3)] [Received.Message (Message.Ok (some 1))] 0 []
